import Mathlib

/-!
Shallow embedding of the data_get_system repository (src/) in Lean 4, together
with theorems settling the frozen claims about it.

Conventions used throughout:
- Python byte strings are embedded as `List Nat` (each entry one byte value).
- Wall-clock timestamps (`time.time()`) and float progress values are embedded
  as rationals.
- Calls into third-party libraries (chardet, codecs, json, yaml, BeautifulSoup,
  mimetypes, cssutils) are embedded as explicit oracle parameters: a fallible
  library call becomes an `Option`-valued function argument, so the glue code
  of the repository is modelled exactly while the library internals stay
  abstract.
- Python source: src/src/utils/web_scraper.py, content_processor.py,
  directory_scanner.py, src/src/config/settings.py, src/src/app/system_saver.py.
-/

/-! ## Generic helpers (Python primitives used by the source) -/

/-- Python `needle in haystack` for sequences: contiguous-subsequence test. -/
def subSeq {α : Type} [BEq α] (needle : List α) : List α → Bool
  | [] => needle.isEmpty
  | a :: rest => needle.isPrefixOf (a :: rest) || subSeq needle rest

/-- Python `haystack.endswith(suffix)` for sequences. -/
def endsWithList {α : Type} [BEq α] (l suf : List α) : Bool :=
  suf.reverse.isPrefixOf l.reverse

/-- Python `pattern in string` (substring containment on text). -/
def strContains (s pat : String) : Bool :=
  subSeq pat.data s.data

/-- Python `s.startswith(pre)` on text (character-list prefix test). -/
def strStartsWith (s pre : String) : Bool :=
  pre.data.isPrefixOf s.data

/-- Python `s.endswith(suf)` on text (character-list suffix test). -/
def strEndsWith (s suf : String) : Bool :=
  endsWithList s.data suf.data

/-- Byte values of an ASCII string literal (UTF-8 of ASCII = code points). -/
def asciiBytes (s : String) : List Nat :=
  s.data.map Char.toNat

/-! ## Configuration constants (src/src/config/settings.py) -/

/-- settings.RESOURCE_MANAGEMENT["network"]["max_bandwidth"] = 10 * 1024 * 1024. -/
def max_bandwidth : Nat := 10 * 1024 * 1024

/-- settings.RESOURCE_MANAGEMENT["network"]["connection_limit"] = 10. -/
def connection_limit : Int := 10

/-- settings.COMPATIBILITY["encoding"]["output"]["fallback"] = "utf-8-sig". -/
def ENCODING_FALLBACK : String := "utf-8-sig"

/-- settings.COMPATIBILITY["encoding"]["output"]["default"] = "utf-8". -/
def ENCODING_DEFAULT : String := "utf-8"

/-- settings.EXCLUDED_ITEMS["directories"]. -/
def EXCLUDED_DIRECTORIES : List String :=
  [".git", "__pycache__", "venv", "node_modules", "dist", "build"]

/-- settings.EXCLUDED_ITEMS["files"]. -/
def EXCLUDED_FILE_PATTERNS : List String :=
  [".DS_Store", "Thumbs.db", "*.pyc", "*.pyo", "*.pyd", ".env"]

/-- fnmatch.fnmatch restricted to the pattern shapes actually occurring in
EXCLUDED_FILE_PATTERNS: a leading `*` followed by a literal suffix, or a fully
literal pattern (on POSIX, fnmatch is the identity-case match). -/
def fnmatch_simple (name pat : String) : Bool :=
  if strStartsWith pat "*" then strEndsWith name ⟨pat.data.drop 1⟩
  else name == pat

/-- Settings.should_skip_file: filename matches one of the excluded patterns. -/
def should_skip_file (filename : String) : Bool :=
  EXCLUDED_FILE_PATTERNS.any (fun pat => fnmatch_simple filename pat)

/-! ## ResourceLimiter (src/src/utils/web_scraper.py, lines 33-83)

The bandwidth window is the `_bandwidth_window : List[Tuple[float, int]]`
field; `check_and_update_bandwidth` is embedded as a state-passing function
taking the current window, the current wall-clock time (the value of
`time.time()` at this call) and the byte count, returning the new window and
the boolean verdict. -/

/-- The list comprehension at web_scraper.py:60-63 - keep samples whose age is
at most one second. -/
def prune_window (now : Rat) (w : List (Rat × Nat)) : List (Rat × Nat) :=
  w.filter (fun s => decide (now - s.1 ≤ 1))

/-- ResourceLimiter.check_and_update_bandwidth (web_scraper.py:54-70):
prune, append the new (timestamp, bytes) sample, sum, compare with the
configured maximum. -/
def check_and_update_bandwidth (mbw : Nat) (w : List (Rat × Nat)) (now : Rat)
    (bytes_count : Nat) : List (Rat × Nat) × Bool :=
  let w2 := prune_window now w ++ [(now, bytes_count)]
  (w2, decide ((w2.map (fun s => s.2)).sum ≤ mbw))

/-- ResourceLimiter.acquire_connection (web_scraper.py:72-78): the active
counter is a Python int, embedded as `Int`; returns the new counter and the
verdict. -/
def acquire_connection (limit active : Int) : Int × Bool :=
  if active ≥ limit then (active, false) else (active + 1, true)

/-- ResourceLimiter.release_connection (web_scraper.py:80-83):
`max(0, active - 1)`. -/
def release_connection (active : Int) : Int :=
  max 0 (active - 1)

/-- n consecutive acquire_connection calls, threading the counter and
collecting the boolean result of each call. -/
def acquire_repeat (limit active : Int) : Nat → Int × List Bool
  | 0 => (active, [])
  | n + 1 =>
    let r := acquire_connection limit active
    let rest := acquire_repeat limit r.1 n
    (rest.1, r.2 :: rest.2)

/-- One step of the connection counter: the state transition performed by
acquire_connection or release_connection (the verdict is dropped). -/
inductive ConnOp where
  | acq : ConnOp
  | rel : ConnOp

/-- State transition of `_active_connections` under one call. -/
def conn_step (limit active : Int) : ConnOp → Int
  | ConnOp.acq => (acquire_connection limit active).1
  | ConnOp.rel => release_connection active

/-- The counter after an arbitrary call sequence, starting from the
constructor value `_active_connections = 0`. -/
def run_conn_ops (limit : Int) (ops : List ConnOp) : Int :=
  ops.foldl (fun a op => conn_step limit a op) 0

/-! ## ContentProcessor: content-type classification
(src/src/utils/content_processor.py, lines 102-167)

`json.loads`-succeeds and `yaml.safe_load`-succeeds are external library
predicates, passed in as boolean oracles on the byte content. The
`mimetypes.guess_type(filename)` result (stdlib table extended by
_setup_mimetypes) is passed in as an `Option String`. -/

/-- The byte allow-list of ContentProcessor._is_binary
(content_processor.py:105): bytes 7,8,9,10,12,13,27 and 0x20-0xFF minus 0x7F
are text characters. -/
def is_text_char (b : Nat) : Bool :=
  b == 7 || b == 8 || b == 9 || b == 10 || b == 12 || b == 13 || b == 27 ||
    (decide (32 ≤ b) && decide (b < 256) && decide (b ≠ 127))

/-- ContentProcessor._is_binary (content_processor.py:102-106): after deleting
every text character, anything left means binary. -/
def is_binary (content : List Nat) : Bool :=
  content.any (fun b => !(is_text_char b))

/-- The JS keyword list of content_processor.py:119. -/
def js_keywords : List (List Nat) :=
  [asciiBytes "function", asciiBytes "var", asciiBytes "let",
   asciiBytes "const", asciiBytes "class", asciiBytes "import",
   asciiBytes "export"]

/-- The HTML branch condition of content_processor.py:111: startswith
b"<!DOCTYPE html" or b"<html". -/
def html_prefix_hit (content : List Nat) : Bool :=
  (asciiBytes "<!DOCTYPE html").isPrefixOf content
    || (asciiBytes "<html").isPrefixOf content

/-- The CSS branch condition of content_processor.py:115: an opening curly
brace byte (123) present together with one of the property names. -/
def css_heuristic_hit (content : List Nat) : Bool :=
  subSeq [123] content && (subSeq (asciiBytes "margin") content
    || subSeq (asciiBytes "padding") content
    || subSeq (asciiBytes "color") content)

/-- The JS branch condition of content_processor.py:119-120. -/
def js_heuristic_hit (content : List Nat) : Bool :=
  js_keywords.any (fun k => subSeq k content)

/-- The JSON branch condition of content_processor.py:124-129: starts with the
opening brace byte, ends with the closing brace byte (125), and json.loads
succeeds. -/
def json_hit (json_loads_ok : List Nat → Bool) (content : List Nat) : Bool :=
  List.isPrefixOf [123] content && endsWithList content [125]
    && json_loads_ok content

/-- ContentProcessor._detect_content_type_from_content
(content_processor.py:108-139). -/
def detect_content_type_from_content (json_loads_ok yaml_safe_load_ok :
    List Nat → Bool) (content : List Nat) : String :=
  if html_prefix_hit content then
    "text/html"
  else if css_heuristic_hit content then
    "text/css"
  else if js_heuristic_hit content then
    "application/javascript"
  else if json_hit json_loads_ok content then
    "application/json"
  else if yaml_safe_load_ok content then
    "application/x-yaml"
  else if is_binary content then
    "application/octet-stream"
  else
    "text/plain"

/-- ContentProcessor.get_content_type (content_processor.py:141-167):
filename-table lookup first (the `mimetypes.guess_type` result is the
`filename_mime` oracle; `none` both when no filename was given and when the
table has no entry), then content sniffing. The body never raises, and its
`except` arm is unreachable in this pure embedding. -/
def get_content_type (json_loads_ok yaml_safe_load_ok : List Nat → Bool)
    (content : List Nat) (filename_mime : Option String) : String :=
  match filename_mime with
  | some m => m
  | none => detect_content_type_from_content json_loads_ok yaml_safe_load_ok content

/-- The labels the content-sniffing branch can produce. -/
def sniff_labels : List String :=
  ["text/html", "text/css", "application/javascript", "application/json",
   "application/x-yaml", "application/octet-stream", "text/plain"]

/-! ## ContentProcessor: encoding detection and conversion
(content_processor.py, lines 53-100)

`chardet.detect` is embedded as `chardet_result : Option (Option String × Rat)`:
`none` when the library call raises, otherwise the (encoding, confidence) pair,
with `none` encoding when chardet has no answer. Codec calls are
`Option`-valued oracles (`none` = UnicodeError); the `errors="replace"` decode
can never raise, hence is a total oracle. -/

/-- ContentProcessor.detect_encoding (content_processor.py:53-76). -/
def detect_encoding (chardet_result : Option (Option String × Rat))
    (fallback dflt : String) : String :=
  match chardet_result with
  | none => dflt
  | some (enc, conf) =>
    if conf < 7 / 10 then fallback else enc.getD dflt

/-- ContentProcessor.convert_encoding (content_processor.py:78-100).
`decode_as enc bytes` embeds `bytes.decode(enc)`, `encode_as enc text` embeds
`text.encode(enc)`, `force_decode` embeds
`content.decode("utf-8", errors="replace")` (total). Any raised step lands in
the `except` arm: `(force_decode content, "unknown")`. -/
def convert_encoding (decode_as : String → List Nat → Option String)
    (encode_as : String → String → Option (List Nat))
    (force_decode : List Nat → String)
    (chardet_result : Option (Option String × Rat))
    (fallback dflt target_encoding : String)
    (content : List Nat) : String × String :=
  let source_encoding := detect_encoding chardet_result fallback dflt
  if source_encoding.toLower == target_encoding.toLower then
    match decode_as source_encoding content with
    | some s => (s, source_encoding)
    | none => (force_decode content, "unknown")
  else
    match decode_as source_encoding content with
    | none => (force_decode content, "unknown")
    | some decoded =>
      match encode_as target_encoding decoded with
      | none => (force_decode content, "unknown")
      | some bs =>
        match decode_as target_encoding bs with
        | none => (force_decode content, "unknown")
        | some s => (s, source_encoding)

/-! ## ContentProcessor: HTML sanitization
(content_processor.py, lines 353-390)

The parsed DOM (the BeautifulSoup tree) is embedded as a mutual tree/forest;
the HTML arm of sanitize_content decomposes every `script` element (removing its
whole subtree) and deletes every attribute whose name starts with `on` from
every surviving element, exactly as the two loops at lines 368-374 do. -/

mutual

inductive HtmlNode where
  | text (s : String) : HtmlNode
  | element (tag : String) (attrs : List (String × String))
      (children : HtmlForest) : HtmlNode

inductive HtmlForest where
  | nil : HtmlForest
  | cons (n : HtmlNode) (rest : HtmlForest) : HtmlForest

end

mutual

/-- Effect of `script.decompose()` plus the `on*` attribute deletion on one
node: a script element disappears (with its whole subtree), any other element
keeps its non-`on*` attributes and its sanitized children. -/
def sanitizeNode (n : HtmlNode) : Option HtmlNode :=
  match n with
  | HtmlNode.text s => some (HtmlNode.text s)
  | HtmlNode.element tag attrs children =>
    if tag == "script" then none
    else some (HtmlNode.element tag
      (attrs.filter (fun a => !(strStartsWith a.1 "on")))
      (sanitizeForest children))
termination_by structural n

/-- The HTML arm of sanitize_content on a forest of siblings. -/
def sanitizeForest (f : HtmlForest) : HtmlForest :=
  match f with
  | HtmlForest.nil => HtmlForest.nil
  | HtmlForest.cons n rest =>
    match sanitizeNode n with
    | none => sanitizeForest rest
    | some m => HtmlForest.cons m (sanitizeForest rest)
termination_by structural f

end

mutual

/-- Does any element of the tree carry the `script` tag? -/
def nodeHasScript (n : HtmlNode) : Bool :=
  match n with
  | HtmlNode.text _ => false
  | HtmlNode.element tag _ children =>
    tag == "script" || forestHasScript children
termination_by structural n

def forestHasScript (f : HtmlForest) : Bool :=
  match f with
  | HtmlForest.nil => false
  | HtmlForest.cons n rest => nodeHasScript n || forestHasScript rest
termination_by structural f

end

mutual

/-- Does any element of the tree carry an attribute whose name starts with
`on`? -/
def nodeHasOnAttr (n : HtmlNode) : Bool :=
  match n with
  | HtmlNode.text _ => false
  | HtmlNode.element _ attrs children =>
    attrs.any (fun a => strStartsWith a.1 "on") || forestHasOnAttr children
termination_by structural n

def forestHasOnAttr (f : HtmlForest) : Bool :=
  match f with
  | HtmlForest.nil => false
  | HtmlForest.cons n rest => nodeHasOnAttr n || forestHasOnAttr rest
termination_by structural f

end

/-- ContentProcessor.sanitize_content (content_processor.py:353-390): the
content-type dispatch. The HTML arm (parse, decompose scripts, strip on*
attributes, re-serialize) and the CSS arm (parse, drop `expression`
properties, re-serialize) are oracle parameters whose `none` result is the
`except` arm returning the original content; all other content types return
the content unchanged. -/
def sanitize_content (html_sanitize css_sanitize : String → Option String)
    (content content_type : String) : String :=
  if strContains content_type "text/html" then
    (html_sanitize content).getD content
  else if strContains content_type "text/css" then
    (css_sanitize content).getD content
  else
    content

/-! ## ContentProcessor.format_content (content_processor.py, lines 314-351)

json.loads / json.dumps(indent=2, ensure_ascii=False) and yaml.safe_load /
yaml.dump(allow_unicode=True, default_flow_style=False) are embedded as
loader/serializer oracle pairs over abstract value types `J` and `Y`; a
`none` from a loader is the raised exception landing in the `except` arm, which
returns the original content. -/

/-- ContentProcessor.format_content: dispatch in source order (html, css,
javascript, json, yaml/yml, other). -/
def format_content {J Y : Type} (json_loads : String → Option J)
    (json_dumps : J → String)
    (yaml_safe_load : String → Option Y) (yaml_dump : Y → String)
    (html_prettify css_format : String → Option String)
    (content content_type : String) : String :=
  if strContains content_type "text/html" then
    (html_prettify content).getD content
  else if strContains content_type "text/css" then
    (css_format content).getD content
  else if strContains content_type "javascript" then
    content
  else if strContains content_type "json" then
    match json_loads content with
    | some v => json_dumps v
    | none => content
  else if strContains content_type "yaml" || strContains content_type "yml" then
    match yaml_safe_load content with
    | some v => yaml_dump v
    | none => content
  else
    content

/-! ## DirectoryScanner.scan_directory_async
(src/src/utils/directory_scanner.py, lines 155-234)

A directory tree is a mutual tree/forest of named directories with a file-name
list. `os.walk` with the in-place `dirs` pruning is exactly top-down recursion:
an entry whose relative depth exceeds `max_depth` contributes no files and its
children are never visited (`dirs.clear(); continue`), otherwise its
children are filtered by the exclusion and hidden-name rules before descent.

Paths are relative-component lists; the scan root contributes no component
(`Path(root).relative_to(base).parts == ()` for the root itself) and the base
path is assumed to contain no excluded or restricted component of its own.
Abstracted, as recorded here: the psutil/wall-clock `_check_performance` early
abort (real time; it can only truncate the yield stream), the per-instance
`_scanned_files` dedup set (a no-op for a fresh scanner over a filesystem,
where `os.walk` lists every path once), and the `max_size` argument (it only
annotates a descriptor, never removes one; the `save` entry point of
system_saver.py does not pass it). `restricted` embeds
Settings.is_path_restricted on the absolute path, `info_ok` embeds
`_get_file_info_async` returning a descriptor rather than None. -/

mutual

inductive FsTree where
  | dir (name : String) (files : List String) (subdirs : FsForest) : FsTree

inductive FsForest where
  | nil : FsForest
  | cons (t : FsTree) (rest : FsForest) : FsForest

end

/-- Name of a directory node. -/
def FsTree.name : FsTree → String
  | FsTree.dir n _ _ => n

/-- Scan parameters: max_depth, include_hidden, the filename pattern
(none = no pattern argument), the restricted-path oracle and the
file-info-success oracle. -/
structure ScanCfg where
  maxDepth : Option Nat
  includeHidden : Bool
  pattern : Option (String → Bool)
  restricted : List String → Bool
  info_ok : List String → Bool

/-- DirectoryScanner._should_skip_path for a file path (restricted prefix,
excluded directory name among the path parts - the filename itself is one of
the parts - or an excluded filename pattern). -/
def should_skip_path_file (cfg : ScanCfg) (rel : List String)
    (fname : String) : Bool :=
  cfg.restricted (rel ++ [fname])
    || (rel ++ [fname]).any (fun c => EXCLUDED_DIRECTORIES.contains c)
    || should_skip_file fname

/-- DirectoryScanner._should_skip_path for a directory path (no filename
pattern check: `path_obj.is_file()` is false). -/
def should_skip_path_dir (cfg : ScanCfg) (rel : List String) : Bool :=
  cfg.restricted rel
    || rel.any (fun c => EXCLUDED_DIRECTORIES.contains c)

/-- The per-file filter of the scan loop (directory_scanner.py:203-222):
skip-path check, hidden check, pattern check, then successful info
retrieval. -/
def scan_file_kept (cfg : ScanCfg) (rel : List String) (f : String) : Bool :=
  !(should_skip_path_file cfg rel f)
    && (cfg.includeHidden || !(strStartsWith f "."))
    && (match cfg.pattern with
        | some pOk => pOk f
        | none => true)
    && cfg.info_ok (rel ++ [f])

/-- The dirs filter of directory_scanner.py:195-199 applied when deciding
whether to descend into subdirectory `t` of the directory at `rel`. -/
def scan_dir_kept (cfg : ScanCfg) (rel : List String) (t : FsTree) : Bool :=
  !(should_skip_path_dir cfg (rel ++ [t.name]))
    && (cfg.includeHidden || !(strStartsWith t.name "."))

mutual

/-- DirectoryScanner.scan_directory_async on the directory whose relative
path from the scan root is `rel` (the root itself has `rel = []`): the list of
relative paths of all yielded file descriptors, in walk order. -/
def scan_directory_async (cfg : ScanCfg) (rel : List String) (t : FsTree) :
    List (List String) :=
  match t with
  | FsTree.dir _ files subdirs =>
    if (match cfg.maxDepth with
        | some m => decide (rel.length > m)
        | none => false) then
      []
    else
      (files.filter (fun f => scan_file_kept cfg rel f)).map
        (fun f => rel ++ [f])
        ++ scan_forest cfg rel subdirs
termination_by structural t

/-- Descent into the filtered subdirectories. -/
def scan_forest (cfg : ScanCfg) (rel : List String) (fo : FsForest) :
    List (List String) :=
  match fo with
  | FsForest.nil => []
  | FsForest.cons t rest =>
    (if scan_dir_kept cfg rel t then
      scan_directory_async cfg (rel ++ [t.name]) t
    else []) ++ scan_forest cfg rel rest
termination_by structural fo

end

/-! ## SystemSaver (src/src/app/system_saver.py) -/

mutual

/-- SystemSaver._count_files (system_saver.py:289-306): os.walk over every
directory; a directory whose path contains an excluded component contributes
nothing (but is still walked through - its descendants all contain that
component too), every other directory contributes its files that do not match
an excluded pattern. `rel` is the component list below the walk root. -/
def count_files_dir (rel : List String) (t : FsTree) : Nat :=
  match t with
  | FsTree.dir _ files subdirs =>
    (if rel.any (fun c => EXCLUDED_DIRECTORIES.contains c) then 0
     else (files.filter (fun f => !(should_skip_file f))).length)
      + count_files_forest rel subdirs
termination_by structural t

def count_files_forest (rel : List String) (fo : FsForest) : Nat :=
  match fo with
  | FsForest.nil => 0
  | FsForest.cons t rest =>
    count_files_dir (rel ++ [t.name]) t + count_files_forest rel rest
termination_by structural fo

end

/-- SystemSaver._count_files from the walk root. -/
def count_files (t : FsTree) : Nat :=
  count_files_dir [] t

/-- Outcome of `_process_file` for one scanned item, as the batch loop at
system_saver.py:240-267 classifies it: a dict containing "skipped", a dict
containing "error", any other dict, or no dict at all (None or a raised
exception delivered by gather with return_exceptions). -/
inductive ProcessOutcome where
  | skippedDict : ProcessOutcome
  | errorDict : ProcessOutcome
  | contentDict : ProcessOutcome
  | noResult : ProcessOutcome

/-- One statistics update of the batch loop: (processed, skipped, error). -/
def stats_step (s : Nat × Nat × Nat) (o : ProcessOutcome) : Nat × Nat × Nat :=
  match o with
  | ProcessOutcome.skippedDict => (s.1, s.2.1 + 1, s.2.2)
  | ProcessOutcome.errorDict => (s.1, s.2.1, s.2.2 + 1)
  | ProcessOutcome.contentDict => (s.1 + 1, s.2.1, s.2.2)
  | ProcessOutcome.noResult => s

/-- Did this outcome produce a result dict (and hence a statistics bump)? -/
def outcome_counted (o : ProcessOutcome) : Bool :=
  match o with
  | ProcessOutcome.noResult => false
  | _ => true

/-- The statistics triple of the produced document: every scanned item is
classified by the (per-path) outcome oracle and folded through the batch
loop update. Batching in groups of 100 only groups these updates; it does
not change the totals. -/
def run_statistics (cfg : ScanCfg) (outcome : List String → ProcessOutcome)
    (t : FsTree) : Nat × Nat × Nat :=
  (scan_directory_async cfg [] t).foldl
    (fun s p => stats_step s (outcome p)) (0, 0, 0)

/-- The scan configuration SystemSaver.save actually uses:
`max_depth = PERFORMANCE["system_saving"]["scanning"].get("max_depth")` is
None (the dict only has a "max_directory_depth" key), include_hidden is left
at its False default, no pattern is passed, the workspace is assumed outside
the restricted system paths, and file-info retrieval succeeds. -/
def system_scan_cfg : ScanCfg :=
  ⟨none, false, none, fun _ => false, fun _ => true⟩

/-- A one-directory filesystem holding a single hidden file `.secrets`:
`_count_files` counts it (it matches no excluded pattern), but
`scan_directory_async` never yields it (hidden files are skipped by
default). -/
def hidden_file_tree : FsTree :=
  FsTree.dir "root" [".secrets"] FsForest.nil

/-! ## SystemSaver progress (system_saver.py, lines 42-46 and 153-287)

`_update_progress` adds its increment and clamps at 100. During `save`, the
calls are: +5 after directory setup, +15 after the structure scan, then - only
when a full batch of 100 collected tasks is gathered - an increment of
`60 * (cumulative processed / total_files)` (guarded by total_files > 0), and
+15 after the YAML write. A trailing partial batch (system_saver.py:257-267)
performs no progress update at all. Progress values are embedded as
rationals. -/

/-- SystemSaver._update_progress (system_saver.py:42-46). -/
def update_progress (p inc : Rat) : Rat :=
  min 100 (p + inc)

/-- Progress after the first `k` full batches of the file-content stage,
starting from progress `p`: batch `i` (1-based) adds
`60 * ((100 * i) / total)` because `_processed_files` has grown to `100 * i`
when the increment is computed. -/
def content_batches_fold (total : Nat) : Nat → Rat → Rat
  | 0, p => p
  | k + 1, p =>
    let q := content_batches_fold total k p
    if 0 < total then
      update_progress q (60 * ((100 * (k + 1) : Rat) / (total : Rat)))
    else q

/-- Final progress of a completed system-mode save over `total` counted files
of which `yielded` are scanned and collected (only `yielded / 100` full
batches ever trigger a progress update): +5 setup, +15 structure,
the batch increments, +15 write. -/
def save_progress (total yielded : Nat) : Rat :=
  update_progress
    (content_batches_fold total (yielded / 100)
      (update_progress (update_progress 0 5) 15))
    15

/-- A scan configuration with max_depth = 0 (otherwise as the system run:
hidden files excluded, no pattern, nothing restricted, info retrieval
succeeding). -/
def depth0_cfg : ScanCfg :=
  ⟨some 0, false, none, fun _ => false, fun _ => true⟩

/-- A two-level tree: one file at the root, one file inside a subdirectory. -/
def nested_tree : FsTree :=
  FsTree.dir "root" ["top.txt"]
    (FsForest.cons (FsTree.dir "sub" ["deep.txt"] FsForest.nil) FsForest.nil)

/-! ## Theorems -/

/-- Helper: while the counter stays below the limit, `n` consecutive
acquire_connection calls all succeed and increment the counter `n` times. -/
theorem acquire_repeat_below (L : Int) : ∀ (n : Nat) (a : Int), a + n ≤ L →
    acquire_repeat L a n = (a + n, List.replicate n true) := by
  intro n
  induction n with
  | zero => intro a _; simp [acquire_repeat]
  | succ k ih =>
    intro a h
    have hlt : ¬ (a ≥ L) := by omega
    simp only [acquire_repeat, acquire_connection, if_neg hlt]
    rw [ih (a + 1) (by omega)]
    simp [List.replicate_succ]
    omega

/-- Claim C1: check_and_update_bandwidth keeps exactly the samples at most one
second old plus the new sample, and accepts iff the window sum is at most the
configured maximum; consequently two reservations of max_bandwidth bytes each
within one second see the first accepted and the second rejected, and a
reservation made more than one second after both is accepted again. -/
theorem c1_bandwidth_sliding_window :
    (∀ (mbw : Nat) (w : List (Rat × Nat)) (now : Rat) (b : Nat),
      (check_and_update_bandwidth mbw w now b).1
          = prune_window now w ++ [(now, b)] ∧
      (∀ s, s ∈ (check_and_update_bandwidth mbw w now b).1 ↔
          ((s ∈ w ∧ now - s.1 ≤ 1) ∨ s = (now, b))) ∧
      ((check_and_update_bandwidth mbw w now b).2 = true ↔
        ((prune_window now w ++ [(now, b)]).map (fun s => s.2)).sum ≤ mbw)) ∧
    (∀ (m : Nat) (t0 t1 t2 : Rat), 0 < m → t0 ≤ t1 → t1 - t0 ≤ 1 →
      1 < t2 - t1 →
      (check_and_update_bandwidth m [] t0 m).2 = true ∧
      (check_and_update_bandwidth m
        (check_and_update_bandwidth m [] t0 m).1 t1 m).2 = false ∧
      (check_and_update_bandwidth m
        (check_and_update_bandwidth m
          (check_and_update_bandwidth m [] t0 m).1 t1 m).1 t2 m).2 = true) := by
  constructor
  · intro mbw w now b
    refine ⟨rfl, ?_, ?_⟩
    · intro s
      simp [check_and_update_bandwidth, prune_window, List.mem_filter]
    · simp [check_and_update_bandwidth]
  · intro m t0 t1 t2 hm h01 hle hgt
    have e1 : check_and_update_bandwidth m [] t0 m = ([(t0, m)], true) := by
      simp [check_and_update_bandwidth, prune_window]
    have hd1 : decide (t1 - t0 ≤ 1) = true := decide_eq_true hle
    have e2 : check_and_update_bandwidth m [(t0, m)] t1 m
        = ([(t0, m), (t1, m)], false) := by
      simp only [check_and_update_bandwidth, prune_window, List.filter,
        hd1, List.map, List.sum_cons, List.sum_nil, Prod.mk.injEq]
      refine ⟨by simp, ?_⟩
      simp only [decide_eq_false_iff_not]
      omega
    have hd2 : decide (t2 - t0 ≤ 1) = false := by
      simp only [decide_eq_false_iff_not]
      intro hcon
      have : t2 - t1 ≤ 1 := by linarith
      linarith
    have hd3 : decide (t2 - t1 ≤ 1) = false := by
      simp only [decide_eq_false_iff_not]
      intro hcon
      linarith
    have e3 : check_and_update_bandwidth m [(t0, m), (t1, m)] t2 m
        = ([(t2, m)], true) := by
      simp only [check_and_update_bandwidth, prune_window, List.filter,
        hd2, hd3, List.map, List.sum_cons, List.sum_nil, Prod.mk.injEq]
      simp
    rw [e1, e2, e3]
    exact ⟨rfl, rfl, rfl⟩

/-- Witness for C1 at the configured max_bandwidth and times 0, 1, 3. -/
theorem c1_bandwidth_sliding_window_witness :
    0 < max_bandwidth ∧
    ((check_and_update_bandwidth max_bandwidth [] 0 max_bandwidth).2 = true ∧
     (check_and_update_bandwidth max_bandwidth
       (check_and_update_bandwidth max_bandwidth [] 0 max_bandwidth).1
       1 max_bandwidth).2 = false ∧
     (check_and_update_bandwidth max_bandwidth
       (check_and_update_bandwidth max_bandwidth
         (check_and_update_bandwidth max_bandwidth [] 0 max_bandwidth).1
         1 max_bandwidth).1 3 max_bandwidth).2 = true) :=
  ⟨by norm_num [max_bandwidth],
   c1_bandwidth_sliding_window.2 max_bandwidth 0 1 3
     (by norm_num [max_bandwidth]) (by norm_num) (by norm_num) (by norm_num)⟩

/-- Claim C2: with connection limit N > 0, N acquire_connection calls from the
fresh counter all return true and leave the counter at N; the next call
returns false (without any blocking - the function is a plain conditional);
after one release_connection the next acquire_connection returns true. -/
theorem c2_connection_bounded_counter (N : Nat) (hN : 0 < N) :
    acquire_repeat (N : Int) 0 N = ((N : Int), List.replicate N true) ∧
    (acquire_connection (N : Int) (N : Int)).2 = false ∧
    (acquire_connection (N : Int) (release_connection (N : Int))).2 = true := by
  refine ⟨?_, ?_, ?_⟩
  · have h := acquire_repeat_below (N : Int) N 0 (by omega)
    simpa using h
  · simp [acquire_connection]
  · have h1 : release_connection (N : Int) = (N : Int) - 1 := by
      unfold release_connection
      omega
    have h2 : ¬ ((N : Int) - 1 ≥ (N : Int)) := by omega
    rw [h1]
    simp [acquire_connection, h2]

/-- Witness for C2 at the configured connection limit N = 10. -/
theorem c2_connection_bounded_counter_witness :
    0 < 10 ∧
    (acquire_repeat ((10 : Nat) : Int) 0 10
        = (((10 : Nat) : Int), List.replicate 10 true) ∧
     (acquire_connection ((10 : Nat) : Int) ((10 : Nat) : Int)).2 = false ∧
     (acquire_connection ((10 : Nat) : Int)
        (release_connection ((10 : Nat) : Int))).2 = true) :=
  ⟨by norm_num, c2_connection_bounded_counter 10 (by norm_num)⟩

/-- Helper: the connection counter stays in [0, limit] along any call
sequence, from any starting value already in that range. -/
theorem conn_ops_invariant (L : Int) :
    ∀ (ops : List ConnOp) (a : Int), 0 ≤ a → a ≤ L →
      0 ≤ ops.foldl (fun x op => conn_step L x op) a ∧
      ops.foldl (fun x op => conn_step L x op) a ≤ L := by
  intro ops
  induction ops with
  | nil => intro a h0 h1; simpa using ⟨h0, h1⟩
  | cons op rest ih =>
    intro a h0 h1
    have hstep : 0 ≤ conn_step L a op ∧ conn_step L a op ≤ L := by
      cases op with
      | acq =>
        by_cases h : a ≥ L
        · simp only [conn_step, acquire_connection, if_pos h]
          exact ⟨h0, h1⟩
        · simp only [conn_step, acquire_connection, if_neg h]
          constructor <;> omega
      | rel =>
        simp only [conn_step, release_connection]
        constructor <;> omega
    simpa using ih _ hstep.1 hstep.2

/-- Claim C10: for every sequence of acquire/release calls - including
releases not matched by a successful acquire, as happens on the finally paths of get_page
and download_resource - the active-connection counter stays in
[0, connection_limit]; acquire increments exactly when strictly below the
limit, and release clamps at zero instead of going negative. -/
theorem c10_connection_counter_invariant (L : Int) (hL : 0 ≤ L) :
    (∀ ops : List ConnOp,
      0 ≤ run_conn_ops L ops ∧ run_conn_ops L ops ≤ L) ∧
    (∀ a : Int, a < L → conn_step L a ConnOp.acq = a + 1) ∧
    (∀ a : Int, L ≤ a → conn_step L a ConnOp.acq = a) ∧
    (∀ a : Int, 0 ≤ conn_step L a ConnOp.rel ∧
      (conn_step L a ConnOp.rel = a - 1 ∨ conn_step L a ConnOp.rel = 0)) := by
  refine ⟨?_, ?_, ?_, ?_⟩
  · intro ops
    exact conn_ops_invariant L ops 0 le_rfl hL
  · intro a ha
    have h : ¬ (a ≥ L) := by omega
    simp [conn_step, acquire_connection, h]
  · intro a ha
    have h : a ≥ L := by omega
    simp [conn_step, acquire_connection, h]
  · intro a
    simp only [conn_step, release_connection]
    constructor
    · omega
    · omega

/-- Witness for C10 at the configured limit 10, on a call sequence that starts
with an unmatched release. -/
theorem c10_connection_counter_invariant_witness :
    (0 : Int) ≤ connection_limit ∧
    (0 ≤ run_conn_ops connection_limit
        [ConnOp.rel, ConnOp.acq, ConnOp.acq, ConnOp.rel] ∧
     run_conn_ops connection_limit
        [ConnOp.rel, ConnOp.acq, ConnOp.acq, ConnOp.rel] ≤ connection_limit) :=
  ⟨by norm_num [connection_limit],
   (c10_connection_counter_invariant connection_limit
     (by norm_num [connection_limit])).1
     [ConnOp.rel, ConnOp.acq, ConnOp.acq, ConnOp.rel]⟩

/-- Claim C3: for every byte sequence, with or without a filename,
get_content_type returns exactly one label and never none: the filename-table
label when the table has one, otherwise the sniffing result, which is always
one of the seven defined labels; and the sniffing applies the fixed priority
order HTML prefix, CSS heuristic, JS keyword heuristic, JSON, YAML, then the
binary-vs-text control-character heuristic. -/
theorem c3_content_type_total_and_ordered :
    ∀ (jOk yOk : List Nat → Bool) (content : List Nat),
      (∀ s : String, get_content_type jOk yOk content (some s) = s) ∧
      (get_content_type jOk yOk content none
          = detect_content_type_from_content jOk yOk content) ∧
      detect_content_type_from_content jOk yOk content ∈ sniff_labels ∧
      (html_prefix_hit content = true →
        detect_content_type_from_content jOk yOk content = "text/html") ∧
      (html_prefix_hit content = false → css_heuristic_hit content = true →
        detect_content_type_from_content jOk yOk content = "text/css") ∧
      (html_prefix_hit content = false → css_heuristic_hit content = false →
        js_heuristic_hit content = true →
        detect_content_type_from_content jOk yOk content
            = "application/javascript") ∧
      (html_prefix_hit content = false → css_heuristic_hit content = false →
        js_heuristic_hit content = false → json_hit jOk content = true →
        detect_content_type_from_content jOk yOk content
            = "application/json") ∧
      (html_prefix_hit content = false → css_heuristic_hit content = false →
        js_heuristic_hit content = false → json_hit jOk content = false →
        yOk content = true →
        detect_content_type_from_content jOk yOk content
            = "application/x-yaml") ∧
      (html_prefix_hit content = false → css_heuristic_hit content = false →
        js_heuristic_hit content = false → json_hit jOk content = false →
        yOk content = false →
        detect_content_type_from_content jOk yOk content
            = (if is_binary content then "application/octet-stream"
               else "text/plain")) := by
  intro jOk yOk content
  refine ⟨fun s => rfl, rfl, ?_, ?_, ?_, ?_, ?_, ?_, ?_⟩
  · unfold detect_content_type_from_content sniff_labels
    split_ifs <;> simp
  · intro h1
    simp [detect_content_type_from_content, h1]
  · intro h1 h2
    simp [detect_content_type_from_content, h1, h2]
  · intro h1 h2 h3
    simp [detect_content_type_from_content, h1, h2, h3]
  · intro h1 h2 h3 h4
    simp [detect_content_type_from_content, h1, h2, h3, h4]
  · intro h1 h2 h3 h4 h5
    simp [detect_content_type_from_content, h1, h2, h3, h4, h5]
  · intro h1 h2 h3 h4 h5
    simp [detect_content_type_from_content, h1, h2, h3, h4, h5]

/-- Witness for C3: a concrete byte sequence starting with b"<html" is
classified text/html by the sniffer, with trivial parser oracles. -/
theorem c3_content_type_total_and_ordered_witness :
    html_prefix_hit (asciiBytes "<html><p>x</p>") = true ∧
    get_content_type (fun _ => false) (fun _ => false)
        (asciiBytes "<html><p>x</p>") none = "text/html" := by
  have h := c3_content_type_total_and_ordered (fun _ => false) (fun _ => false)
    (asciiBytes "<html><p>x</p>")
  refine ⟨by decide, ?_⟩
  rw [h.2.1]
  exact h.2.2.2.1 (by decide)

/-- Claim C4: detect_encoding and convert_encoding are total: on ambiguous
input (confidence below 0.7) detect_encoding returns the configured fallback,
on a raised detection it returns the default; convert_encoding always returns
either a decoded text tagged with the detected source encoding, or - whenever
any decode/encode step fails - the forced UTF-8-with-replacement decode tagged
"unknown". -/
theorem c4_encoding_never_raises :
    ∀ (decode_as : String → List Nat → Option String)
      (encode_as : String → String → Option (List Nat))
      (force_decode : List Nat → String)
      (cr : Option (Option String × Rat)) (fb df target : String)
      (content : List Nat),
      (∀ enc conf, cr = some (enc, conf) → conf < 7 / 10 →
        detect_encoding cr fb df = fb) ∧
      (cr = none → detect_encoding cr fb df = df) ∧
      (∀ enc conf, cr = some (some enc, conf) → ¬ (conf < 7 / 10) →
        detect_encoding cr fb df = enc) ∧
      ((convert_encoding decode_as encode_as force_decode cr fb df target
          content
            = (force_decode content, "unknown")) ∨
       (∃ s : String, convert_encoding decode_as encode_as force_decode cr fb
          df target content = (s, detect_encoding cr fb df))) ∧
      (decode_as (detect_encoding cr fb df) content = none →
        convert_encoding decode_as encode_as force_decode cr fb df target
          content = (force_decode content, "unknown")) := by
  intro decode_as encode_as force_decode cr fb df target content
  refine ⟨?_, ?_, ?_, ?_, ?_⟩
  · intro enc conf hcr hconf
    subst hcr
    simp [detect_encoding, hconf]
  · intro hcr
    subst hcr
    rfl
  · intro enc conf hcr hconf
    subst hcr
    simp [detect_encoding, hconf]
  · unfold convert_encoding
    cases hm : (detect_encoding cr fb df).toLower == target.toLower with
    | true =>
      simp only [hm, if_true]
      cases hd : decode_as (detect_encoding cr fb df) content with
      | none => exact Or.inl rfl
      | some s => exact Or.inr ⟨s, rfl⟩
    | false =>
      simp only [hm, Bool.false_eq_true, if_false]
      cases hd : decode_as (detect_encoding cr fb df) content with
      | none => exact Or.inl rfl
      | some d =>
        cases he : encode_as target d with
        | none =>
          refine Or.inl ?_
          simp [he]
        | some bs =>
          cases hd2 : decode_as target bs with
          | none =>
            refine Or.inl ?_
            simp [he, hd2]
          | some s =>
            refine Or.inr ⟨s, ?_⟩
            simp [he, hd2]
  · intro hd
    unfold convert_encoding
    cases hm : (detect_encoding cr fb df).toLower == target.toLower with
    | true => simp [hm, hd]
    | false => simp [hm, hd]

/-- Witness for C4: with a failing decoder every conversion lands on the
forced decode tagged "unknown". -/
theorem c4_encoding_never_raises_witness :
    ((fun (_ : String) (_ : List Nat) => (none : Option String))
        (detect_encoding (some (some "ascii", 9 / 10)) ENCODING_FALLBACK
          ENCODING_DEFAULT) [0] = none) ∧
    convert_encoding (fun _ _ => none) (fun _ _ => none) (fun _ => "F")
        (some (some "ascii", 9 / 10)) ENCODING_FALLBACK ENCODING_DEFAULT
        "utf-8" [0] = ("F", "unknown") := by
  have h := c4_encoding_never_raises (fun _ _ => none) (fun _ _ => none)
    (fun _ => "F") (some (some "ascii", 9 / 10)) ENCODING_FALLBACK
    ENCODING_DEFAULT "utf-8" [0]
  exact ⟨rfl, h.2.2.2.2 rfl⟩

mutual

/-- Helper: a node surviving sanitization contains no script element. -/
theorem sanitizeNode_noScript : ∀ (n : HtmlNode) (m : HtmlNode),
    sanitizeNode n = some m → nodeHasScript m = false
  | HtmlNode.text s, m, h => by
    simp only [sanitizeNode, Option.some.injEq] at h
    rw [← h]
    rfl
  | HtmlNode.element tag attrs children, m, h => by
    by_cases ht : (tag == "script") = true
    · simp [sanitizeNode, ht] at h
    · simp only [sanitizeNode, Bool.not_eq_true] at h
      rw [if_neg (by simp [ht])] at h
      simp only [Option.some.injEq] at h
      rw [← h]
      simp only [nodeHasScript, Bool.or_eq_false_iff]
      exact ⟨by simpa using ht, sanitizeForest_noScript children⟩

/-- Helper: a sanitized forest contains no script element. -/
theorem sanitizeForest_noScript : ∀ (f : HtmlForest),
    forestHasScript (sanitizeForest f) = false
  | HtmlForest.nil => rfl
  | HtmlForest.cons n rest => by
    cases hn : sanitizeNode n with
    | none =>
      simp only [sanitizeForest, hn]
      exact sanitizeForest_noScript rest
    | some m =>
      simp only [sanitizeForest, hn, forestHasScript, Bool.or_eq_false_iff]
      exact ⟨sanitizeNode_noScript n m hn, sanitizeForest_noScript rest⟩

end

mutual

/-- Helper: a node surviving sanitization carries no on* attribute anywhere. -/
theorem sanitizeNode_noOnAttr : ∀ (n : HtmlNode) (m : HtmlNode),
    sanitizeNode n = some m → nodeHasOnAttr m = false
  | HtmlNode.text s, m, h => by
    simp only [sanitizeNode, Option.some.injEq] at h
    rw [← h]
    rfl
  | HtmlNode.element tag attrs children, m, h => by
    by_cases ht : (tag == "script") = true
    · simp [sanitizeNode, ht] at h
    · simp only [sanitizeNode, Bool.not_eq_true] at h
      rw [if_neg (by simp [ht])] at h
      simp only [Option.some.injEq] at h
      rw [← h]
      simp only [nodeHasOnAttr, Bool.or_eq_false_iff]
      refine ⟨?_, sanitizeForest_noOnAttr children⟩
      simp only [List.any_eq_false]
      intro a ha
      have := List.of_mem_filter ha
      simpa using this

/-- Helper: a sanitized forest carries no on* attribute anywhere. -/
theorem sanitizeForest_noOnAttr : ∀ (f : HtmlForest),
    forestHasOnAttr (sanitizeForest f) = false
  | HtmlForest.nil => rfl
  | HtmlForest.cons n rest => by
    cases hn : sanitizeNode n with
    | none =>
      simp only [sanitizeForest, hn]
      exact sanitizeForest_noOnAttr rest
    | some m =>
      simp only [sanitizeForest, hn, forestHasOnAttr, Bool.or_eq_false_iff]
      exact ⟨sanitizeNode_noOnAttr n m hn, sanitizeForest_noOnAttr rest⟩

end

/-- Claim C5: the HTML arm of sanitization removes every script element
(with its subtree) and strips every attribute whose name starts with "on"
from every surviving element, and content whose type is neither HTML nor CSS
passes through sanitize_content unchanged. -/
theorem c5_sanitize_removes_scripts_and_handlers :
    (∀ f : HtmlForest, forestHasScript (sanitizeForest f) = false) ∧
    (∀ f : HtmlForest, forestHasOnAttr (sanitizeForest f) = false) ∧
    (∀ (hs cs : String → Option String) (content content_type : String),
      strContains content_type "text/html" = false →
      strContains content_type "text/css" = false →
      sanitize_content hs cs content content_type = content) := by
  refine ⟨sanitizeForest_noScript, sanitizeForest_noOnAttr, ?_⟩
  intro hs cs content content_type h1 h2
  simp [sanitize_content, h1, h2]

/-- Witness for C5: a forest holding a script element sanitizes to a
script-free forest, an anchor with onclick sanitizes to one with no on*
attribute, and JavaScript content passes through unchanged. -/
theorem c5_sanitize_removes_scripts_and_handlers_witness :
    forestHasScript (sanitizeForest (HtmlForest.cons
      (HtmlNode.element "script" []
        (HtmlForest.cons (HtmlNode.text "alert(1)") HtmlForest.nil))
      HtmlForest.nil)) = false ∧
    forestHasOnAttr (sanitizeForest (HtmlForest.cons
      (HtmlNode.element "a" [("onclick", "x"), ("href", "h")] HtmlForest.nil)
      HtmlForest.nil)) = false ∧
    strContains "application/javascript" "text/html" = false ∧
    strContains "application/javascript" "text/css" = false ∧
    sanitize_content (fun _ => none) (fun _ => none) "alert(1)"
      "application/javascript" = "alert(1)" := by
  have h := c5_sanitize_removes_scripts_and_handlers
  exact ⟨h.1 _, h.2.1 _, by decide, by decide,
    h.2.2 (fun _ => none) (fun _ => none) "alert(1)"
      "application/javascript" (by decide) (by decide)⟩

mutual

/-- Helper: every path yielded while scanning a directory at relative path
`rel` is nonempty and at most one component longer than max_depth. -/
theorem scan_dir_bound (cfg : ScanCfg) (m : Nat) (hc : cfg.maxDepth = some m) :
    ∀ (t : FsTree) (rel p : List String),
      p ∈ scan_directory_async cfg rel t → 1 ≤ p.length ∧ p.length ≤ m + 1
  | FsTree.dir name files subdirs, rel, p => by
    intro hp
    simp only [scan_directory_async, hc] at hp
    by_cases hd : rel.length > m
    · rw [if_pos (by simp [hd])] at hp
      exact absurd hp (List.not_mem_nil p)
    · rw [if_neg (by simp [hd])] at hp
      rcases List.mem_append.mp hp with h1 | h2
      · rcases List.mem_map.mp h1 with ⟨f, _, hpf⟩
        rw [← hpf]
        refine ⟨?_, ?_⟩ <;> (simp [List.length_append]; try omega)
      · exact scan_forest_bound cfg m hc subdirs rel p h2

/-- Helper: the same bound for the descent into the filtered subdirectory
forest. -/
theorem scan_forest_bound (cfg : ScanCfg) (m : Nat)
    (hc : cfg.maxDepth = some m) :
    ∀ (f : FsForest) (rel p : List String),
      p ∈ scan_forest cfg rel f → 1 ≤ p.length ∧ p.length ≤ m + 1
  | FsForest.nil, rel, p => by
    intro hp
    simp [scan_forest] at hp
  | FsForest.cons t rest, rel, p => by
    intro hp
    simp only [scan_forest] at hp
    rcases List.mem_append.mp hp with h1 | h2
    · by_cases hk : scan_dir_kept cfg rel t = true
      · rw [if_pos hk] at h1
        exact scan_dir_bound cfg m hc t (rel ++ [t.name]) p h1
      · rw [if_neg hk] at h1
        exact absurd h1 (List.not_mem_nil p)
    · exact scan_forest_bound cfg m hc rest rel p h2

end

/-- Claim C7: with a max_depth of m, every yielded descriptor names a file at
most m directory levels below the root (path of at most m+1 components); with
max_depth = 0 only top-level entries of the root are yielded; and a walk entry
at depth greater than max_depth yields nothing and never visits its subtree
(`dirs.clear(); continue`). -/
theorem c7_traversal_depth_pruning (cfg : ScanCfg) (m : Nat)
    (hc : cfg.maxDepth = some m) :
    (∀ (t : FsTree) (p : List String), p ∈ scan_directory_async cfg [] t →
      1 ≤ p.length ∧ p.length ≤ m + 1) ∧
    (m = 0 → ∀ (t : FsTree) (p : List String),
      p ∈ scan_directory_async cfg [] t → ∃ f, p = [f]) ∧
    (∀ (t : FsTree) (rel : List String), m < rel.length →
      scan_directory_async cfg rel t = []) := by
  refine ⟨?_, ?_, ?_⟩
  · intro t p hp
    exact scan_dir_bound cfg m hc t [] p hp
  · intro hm t p hp
    have h := scan_dir_bound cfg m hc t [] p hp
    subst hm
    cases p with
    | nil => simp at h
    | cons a l =>
      cases l with
      | nil => exact ⟨a, rfl⟩
      | cons b l2 =>
        exfalso
        have h2 := h.2
        simp [List.length_cons] at h2
  · intro t rel hrel
    cases t with
    | dir name files subdirs =>
      simp [scan_directory_async, hc, hrel]

/-- Witness for C7: with max_depth = 0 a two-level tree yields exactly the
top-level file, and the walk entry for the depth-1 subdirectory yields
nothing. -/
theorem c7_traversal_depth_pruning_witness :
    depth0_cfg.maxDepth = some 0 ∧
    scan_directory_async depth0_cfg [] nested_tree = [["top.txt"]] ∧
    (∃ f, (["top.txt"] : List String) = [f]) ∧
    scan_directory_async depth0_cfg ["sub"]
      (FsTree.dir "sub" ["deep.txt"] FsForest.nil) = [] := by
  have h := c7_traversal_depth_pruning depth0_cfg 0 rfl
  refine ⟨rfl, by decide, ?_, ?_⟩
  · exact h.2.1 rfl nested_tree ["top.txt"] (by decide)
  · exact h.2.2 (FsTree.dir "sub" ["deep.txt"] FsForest.nil) ["sub"]
      (by decide)

/-- Helper: folding the statistics update of the batch loop over any item list
adds exactly one to the sum of the triple per item classified as a result dict. -/
theorem stats_fold_sum (outcome : List String → ProcessOutcome) :
    ∀ (l : List (List String)) (s : Nat × Nat × Nat),
      ((l.foldl (fun s p => stats_step s (outcome p)) s).1
        + (l.foldl (fun s p => stats_step s (outcome p)) s).2.1
        + (l.foldl (fun s p => stats_step s (outcome p)) s).2.2)
        = s.1 + s.2.1 + s.2.2
          + l.countP (fun p => outcome_counted (outcome p)) := by
  intro l
  induction l with
  | nil => intro s; simp
  | cons p rest ih =>
    intro s
    simp only [List.foldl_cons, List.countP_cons]
    rw [ih (stats_step s (outcome p))]
    cases ho : outcome p <;> simp [stats_step, outcome_counted, ho] <;> omega

/-- Claim C8 (amended): processed + skipped + error equals the number of
scanned items whose processing produced a result dict - not in general
total_files, which _count_files computes with a different filter. -/
theorem c8_statistics_sum_amended :
    ∀ (cfg : ScanCfg) (outcome : List String → ProcessOutcome) (t : FsTree),
      (run_statistics cfg outcome t).1 + (run_statistics cfg outcome t).2.1
        + (run_statistics cfg outcome t).2.2
      = (scan_directory_async cfg [] t).countP
          (fun p => outcome_counted (outcome p)) := by
  intro cfg outcome t
  unfold run_statistics
  rw [stats_fold_sum outcome (scan_directory_async cfg [] t) (0, 0, 0)]
  simp

/-- Counterexample to C8 as stated: over a root holding the single hidden
file `.secrets`, total_files counts 1 but the scan yields nothing, so the
statistics sum to 0 - even when every processed item produces a result
dict. -/
theorem c8_statistics_sum_counterexample :
    ¬ ((run_statistics system_scan_cfg (fun _ => ProcessOutcome.contentDict)
        hidden_file_tree).1
      + (run_statistics system_scan_cfg (fun _ => ProcessOutcome.contentDict)
        hidden_file_tree).2.1
      + (run_statistics system_scan_cfg (fun _ => ProcessOutcome.contentDict)
        hidden_file_tree).2.2
      = count_files hidden_file_tree) := by
  decide

/-- Claim C9 (evaluation of the code at failing inputs): a run over 50
counted-and-scanned files finishes at progress 35 (the file-content stage
contributes 0: a trailing partial batch performs no update), a run over
exactly 100 files finishes at 95 (not 100: the nominal weights are
5+15+60+15), and over 200 files the content stage alone moves progress from
20 to 100 (it adds 60*(100/200) then 60*(200/200): the cumulative fraction is
fed to an additive updater). -/
theorem c9_progress_stage_weights_run :
    save_progress 50 50 = 35 ∧
    save_progress 100 100 = 95 ∧
    content_batches_fold 200 2 20 = 100 ∧
    save_progress 200 200 = 100 := by
  refine ⟨?_, ?_, ?_, ?_⟩ <;>
    norm_num [save_progress, content_batches_fold, update_progress]

/-- Claim C6: format_content is idempotent on JSON and on YAML content.
For any content type that selects neither the HTML nor the CSS arm, and given
the round-trip property of the external serializers (loads after dumps
returns the value), applying format_content twice returns exactly the output
of one application: a parse failure passes the text through both times, and a
parse success re-serializes to the canonical text, which re-parses to the
same value. This covers the JSON arm, the YAML arm, and the verbatim arms. -/
theorem c6_format_idempotent {J Y : Type}
    (json_loads : String → Option J) (json_dumps : J → String)
    (yaml_safe_load : String → Option Y) (yaml_dump : Y → String)
    (html_prettify css_format : String → Option String)
    (content_type : String)
    (hjrt : ∀ v : J, json_loads (json_dumps v) = some v)
    (hyrt : ∀ v : Y, yaml_safe_load (yaml_dump v) = some v)
    (hhtml : strContains content_type "text/html" = false)
    (hcss : strContains content_type "text/css" = false) :
    ∀ content : String,
      format_content json_loads json_dumps yaml_safe_load yaml_dump
        html_prettify css_format
        (format_content json_loads json_dumps yaml_safe_load yaml_dump
          html_prettify css_format content content_type) content_type
      = format_content json_loads json_dumps yaml_safe_load yaml_dump
          html_prettify css_format content content_type := by
  intro content
  unfold format_content
  simp only [hhtml, Bool.false_eq_true, if_false, hcss]
  by_cases hjs : strContains content_type "javascript" = true
  · simp [hjs]
  · have hjsf : strContains content_type "javascript" = false := by
      simpa using hjs
    simp only [hjsf, Bool.false_eq_true, if_false]
    by_cases hj : strContains content_type "json" = true
    · simp only [hj, if_true]
      cases hl : json_loads content with
      | none => simp [hl]
      | some v => simp [hl, hjrt v]
    · have hjf : strContains content_type "json" = false := by
        simpa using hj
      simp only [hjf, Bool.false_eq_true, if_false]
      by_cases hy : (strContains content_type "yaml"
          || strContains content_type "yml") = true
      · simp only [hy, if_true]
        cases hl : yaml_safe_load content with
        | none => simp [hl]
        | some v => simp [hl, hyrt v]
      · have hyf : (strContains content_type "yaml"
            || strContains content_type "yml") = false := by
          simpa using hy
        simp [hyf]

/-- Witness for C6: concrete one-value serializers satisfying the round-trip
law, on content type application/json. -/
theorem c6_format_idempotent_witness :
    (∀ v : Unit,
      (fun s => if s = "\x7b\x7d" then some () else none)
        ((fun _ : Unit => "\x7b\x7d") v) = some v) ∧
    strContains "application/json" "text/html" = false ∧
    format_content (fun s => if s = "\x7b\x7d" then some () else none)
        (fun _ : Unit => "\x7b\x7d")
        (fun s => if s = "k: 1" then some () else none)
        (fun _ : Unit => "k: 1") (fun _ => none) (fun _ => none)
        (format_content (fun s => if s = "\x7b\x7d" then some () else none)
          (fun _ : Unit => "\x7b\x7d")
          (fun s => if s = "k: 1" then some () else none)
          (fun _ : Unit => "k: 1") (fun _ => none) (fun _ => none)
          "x" "application/json") "application/json"
      = format_content (fun s => if s = "\x7b\x7d" then some () else none)
          (fun _ : Unit => "\x7b\x7d")
          (fun s => if s = "k: 1" then some () else none)
          (fun _ : Unit => "k: 1") (fun _ => none) (fun _ => none)
          "x" "application/json" := by
  refine ⟨fun v => by cases v; simp, by decide, ?_⟩
  exact c6_format_idempotent
    (fun s => if s = "\x7b\x7d" then some () else none)
    (fun _ : Unit => "\x7b\x7d")
    (fun s => if s = "k: 1" then some () else none)
    (fun _ : Unit => "k: 1") (fun _ => none) (fun _ => none)
    "application/json"
    (fun v => by cases v; simp) (fun v => by cases v; simp)
    (by decide) (by decide) "x"
